import Mathlib

/-!
Shallow embedding of the training-loop driver in train.py.

The driver wires together PRNG-key splitting, stochastic and greedy
evaluation, an epoch function (replica-axis strip, conditional CPU
device placement around the rollout, gradient step, metric reduction,
replica-axis re-attachment) and scoped logger writes.  External black
boxes (agent, evaluators, logger, setup) are parameters of the model;
PRNG keys are modelled as the ideal splittable PRNG (split paths from
the root seed), device placement as an explicit device tag on values,
and the loop as a function producing a trace of observable events.
-/

namespace JumanjiTrain

/-- Configuration fields of cfg that train reads: cfg.seed and the
cfg.env.training values, flattened into one record. -/
structure Config where
  seed : Nat
  n_steps : Nat
  total_batch_size : Nat
  num_learner_steps_per_epoch : Nat
  num_epochs : Nat
deriving DecidableEq

/-- Embeds num_steps_per_epoch of train.py (lines 72-76):
n_steps * total_batch_size * num_learner_steps_per_epoch. -/
def numStepsPerEpoch (cfg : Config) : Nat :=
  cfg.n_steps * cfg.total_batch_size * cfg.num_learner_steps_per_epoch

/-- PRNG keys, modelled as the ideal splittable PRNG: a key is the path
of split indices leading back to the root seed, and jax.random.split(k, n)
returns the keys Key.sub i k for i below n, in order. -/
inductive Key where
  | root (seed : Nat)
  | sub (idx : Nat) (parent : Key)
deriving DecidableEq

/-- Embeds jax.random.PRNGKey(seed). -/
def prngKey (seed : Nat) : Key := Key.root seed

/-- First output of jax.random.split. -/
def splitFst (k : Key) : Key := Key.sub 0 k

/-- Second output of jax.random.split. -/
def splitSnd (k : Key) : Key := Key.sub 1 k

/-- Third output of jax.random.split(k, 3). -/
def splitThd (k : Key) : Key := Key.sub 2 k

/-- Length of the split path from the root. -/
def Key.depth : Key → Nat
  | Key.root _ => 0
  | Key.sub _ k => k.depth + 1

/-- Metric dictionaries: finitely many named numeric arrays, an array
being a flat list of rationals. -/
abbrev Metrics : Type := List (String × List ℚ)

/-- Embeds jnp.mean on one metric array (sum divided by length). -/
def listMean (l : List ℚ) : ℚ := l.sum / (l.length : ℚ)

/-- Embeds jax.tree_util.tree_map(jnp.mean, metrics) (train.py line 104);
the scalar produced by jnp.mean is represented as a one-element array. -/
def metricsMean (m : Metrics) : Metrics := m.map (fun p => (p.1, [listMean p.2]))

/-- The two devices the driver distinguishes: jax.devices()[0] (primary)
and jax.devices("cpu")[0] (the designated secondary CPU device). -/
inductive Device where
  | primary
  | cpu
deriving DecidableEq

/-- A value tagged with the device it currently resides on. -/
structure Located (α : Type) where
  dev : Device
  val : α
deriving DecidableEq

/-- Embeds jax.device_put on a single value: the value is unchanged,
only its device changes. -/
def device_put {α : Type} (d : Device) (x : Located α) : Located α :=
  { dev := d, val := x.val }

/-- Embeds jax.device_put on a pair (both components move together). -/
def device_put2 {α β : Type} (d : Device) (x : Located α × Located β) :
    Located α × Located β :=
  (device_put d x.1, device_put d x.2)

/-- Actor and critic network parameters (jumanji.training.types). -/
structure ActorCriticParams (α : Type) where
  actor : α
  critic : α
deriving DecidableEq

/-- Parameter state: networks, optimizer state, update counter. -/
structure ParamsState (α : Type) where
  params : ActorCriticParams α
  opt_state : α
  update_count : α
deriving DecidableEq

/-- Training state as the driver sees it: a pytree with a params_state
subtree and an acting_state subtree, each leaf of type α. -/
structure TrainingState (α : Type) where
  params_state : ParamsState α
  acting_state : α
deriving DecidableEq

/-- Embeds jax.tree_map f over the leaves of a TrainingState. -/
def TrainingState.map {α β : Type} (f : α → β) (t : TrainingState α) :
    TrainingState β :=
  { params_state :=
      { params :=
          { actor := f t.params_state.params.actor
            critic := f t.params_state.params.critic }
        opt_state := f t.params_state.opt_state
        update_count := f t.params_state.update_count }
    acting_state := f t.acting_state }

/-- Leafwise combination of two TrainingStates. -/
def TrainingState.map2 {α β γ : Type} (f : α → β → γ)
    (s : TrainingState α) (t : TrainingState β) : TrainingState γ :=
  { params_state :=
      { params :=
          { actor := f s.params_state.params.actor t.params_state.params.actor
            critic := f s.params_state.params.critic t.params_state.params.critic }
        opt_state := f s.params_state.opt_state t.params_state.opt_state
        update_count := f s.params_state.update_count t.params_state.update_count }
    acting_state := f s.acting_state t.acting_state }

/-- A replicated training state: every leaf is an array whose leading
(replica) axis is the list, residing on some device. -/
abbrev RTS (V : Type) := TrainingState (Located (List V))

/-- Embeds the leafwise x[0] of step 1 of epoch_fn: select index 0 of
the leading replica axis; the device is unchanged. -/
def stripLeaf {V : Type} [Inhabited V] (x : Located (List V)) : Located V :=
  { dev := x.dev, val := x.val.headI }

/-- Embeds the leafwise x[None] of step 8 of epoch_fn: insert a new
leading axis of size one; the device is unchanged. -/
def reattachLeaf {V : Type} (x : Located V) : Located (List V) :=
  { dev := x.dev, val := [x.val] }

/-- The agent black box: rollout(policy_params, acting_state) and
gradient_step(training_state, data), as pure functions on values. -/
structure Agent (V D : Type) where
  rollout : V → V → V × D
  gradient_step : TrainingState V → D → TrainingState V × Metrics

/-- Embeds the call agent.rollout(policy_params, acting_state): the
computation runs on the device its inputs were placed on, and its
outputs reside there. -/
def rolloutLocated {V D : Type} (ag : Agent V D) (p a : Located V) :
    Located V × Located D :=
  ((fun r => ({ dev := a.dev, val := r.1 }, { dev := a.dev, val := r.2 }))
    (ag.rollout p.val a.val))

/-- Embeds jax.jit(agent.gradient_step)(training_state, data): jit is
semantically the identity; each output leaf stays on the device of the
corresponding input leaf, and metrics are plain values. -/
def gradientStepLocated {V D : Type} (ag : Agent V D)
    (ts : TrainingState (Located V)) (d : Located D) :
    TrainingState (Located V) × Metrics :=
  ((fun r => (TrainingState.map2 (fun old v => { dev := Located.dev old, val := v }) ts r.1,
              r.2))
    (ag.gradient_step (ts.map Located.val) d.val))

/-- Step 1 of epoch_fn: strip the replica axis of every leaf
(jax.tree_map (fun x => x[0]), train.py line 84). -/
def strippedState {V : Type} [Inhabited V] (ts : RTS V) :
    TrainingState (Located V) :=
  ts.map stripLeaf

/-- Step 2 of epoch_fn (lines 86-92): the pair (policy_params,
acting_state) passed to rollout; when gpu_acting is false it is first
relocated to the CPU device, otherwise it is used in place. -/
def rolloutInputs {V : Type} (gpu_acting : Bool)
    (ts1 : TrainingState (Located V)) : Located V × Located V :=
  if gpu_acting then (ts1.params_state.params.actor, ts1.acting_state)
  else device_put2 Device.cpu (ts1.params_state.params.actor, ts1.acting_state)

/-- Step 3 of epoch_fn (lines 94-97): run the rollout on those inputs. -/
def rolloutResults {V D : Type} (ag : Agent V D) (gpu_acting : Bool)
    (ts1 : TrainingState (Located V)) : Located V × Located D :=
  rolloutLocated ag (rolloutInputs gpu_acting ts1).1 (rolloutInputs gpu_acting ts1).2

/-- Step 4 of epoch_fn (lines 99-100): the (acting_state, data) pair
handed to the gradient step; when gpu_acting is false it is relocated
back to the primary device, otherwise left where it is. -/
def gradInputs {V D : Type} (gpu_acting : Bool)
    (r : Located V × Located D) : Located V × Located D :=
  if gpu_acting then r else device_put2 Device.primary r

/-- Raw metrics produced by the gradient step inside epoch_fn, before
the mean reduction of line 104. -/
def gradRawMetrics {V D : Type} [Inhabited V] (ag : Agent V D)
    (gpu_acting : Bool) (ts : RTS V) : Metrics :=
  (gradientStepLocated ag
      { strippedState ts with
          acting_state := (gradInputs gpu_acting (rolloutResults ag gpu_acting (strippedState ts))).1 }
      (gradInputs gpu_acting (rolloutResults ag gpu_acting (strippedState ts))).2).2

/-- Embeds epoch_fn (train.py lines 83-107): strip the replica axis,
conditionally relocate to CPU, rollout, conditionally relocate back,
merge the acting state, gradient step, mean-reduce the metrics, and
re-attach the replica axis. -/
def epoch_fn {V D : Type} [Inhabited V] (ag : Agent V D) (gpu_acting : Bool)
    (ts : RTS V) : RTS V × Metrics :=
  ((fun r => (TrainingState.map reattachLeaf r.1, metricsMean r.2))
    (gradientStepLocated ag
      { strippedState ts with
          acting_state := (gradInputs gpu_acting (rolloutResults ag gpu_acting (strippedState ts))).1 }
      (gradInputs gpu_acting (rolloutResults ag gpu_acting (strippedState ts))).2))

/-- Leading-axis lengths of the five leaves of a replicated training
state (actor, critic, opt_state, update_count, acting_state). -/
def leafLens {V : Type} (ts : RTS V) : Nat × Nat × Nat × Nat × Nat :=
  (ts.params_state.params.actor.val.length,
   ts.params_state.params.critic.val.length,
   ts.params_state.opt_state.val.length,
   ts.params_state.update_count.val.length,
   ts.acting_state.val.length)

/-- The external components train delegates to, as pure functions:
the agent, the outcome of the isinstance(agent, RandomAgent) test, the
two evaluators, utils.first_from_device, and setup_training_state. -/
structure Oracles (V D : Type) where
  agent : Agent V D
  agentIsRandom : Bool
  stochasticEval : ParamsState (Located (List V)) → Key → Metrics
  greedyEval : ParamsState (Located (List V)) → Key → Metrics
  firstFromDevice : Metrics → Metrics
  setupTrainingState : Key → RTS V

/-- Observable events of one run of train: logger lifecycle, key
splits, evaluator invocations, epoch_fn invocations, and logger
writes with their label and env_steps. -/
inductive Ev where
  | logAcquire
  | logRelease
  | keySplit (carry stoch greedy : Key)
  | stochEvalRun (key : Key)
  | greedyEvalRun (key : Key)
  | epochFnCall
  | write (label : String) (env_steps : Nat) (data : Metrics)
deriving DecidableEq

/-- Embeds one iteration of the epoch loop (train.py lines 113-150):
compute env_steps, split the key in three, run and log the stochastic
evaluation, run and log the greedy evaluation unless the agent is a
RandomAgent, then run and log epoch_fn.  Returns the carried key, the
new training state, and the events of the iteration in order. -/
def runEpoch {V D : Type} [Inhabited V] (o : Oracles V D) (gpu_acting : Bool)
    (cfg : Config) (i : Nat) (key : Key) (ts : RTS V) :
    Key × RTS V × List Ev :=
  (splitFst key,
   (epoch_fn o.agent gpu_acting ts).1,
   [Ev.keySplit (splitFst key) (splitSnd key) (splitThd key),
    Ev.stochEvalRun (splitSnd key),
    Ev.write "eval_stochastic" (i * numStepsPerEpoch cfg)
      (o.firstFromDevice (o.stochasticEval ts.params_state (splitSnd key)))]
   ++ (if o.agentIsRandom then []
       else
        [Ev.greedyEvalRun (splitThd key),
         Ev.write "eval_greedy" (i * numStepsPerEpoch cfg)
           (o.firstFromDevice (o.greedyEval ts.params_state (splitThd key)))])
   ++ [Ev.epochFnCall,
       Ev.write "train" (i * numStepsPerEpoch cfg)
         (epoch_fn o.agent gpu_acting ts).2])

/-- The remaining epochs of the loop starting at epoch index i with the
given key and training state. -/
def runFrom {V D : Type} [Inhabited V] (o : Oracles V D) (gpu_acting : Bool)
    (cfg : Config) : Nat → Nat → Key → RTS V → List Ev
  | _, 0, _, _ => []
  | i, fuel + 1, key, ts =>
      (runEpoch o gpu_acting cfg i key ts).2.2
        ++ runFrom o gpu_acting cfg (i + 1) fuel
             (runEpoch o gpu_acting cfg i key ts).1
             (runEpoch o gpu_acting cfg i key ts).2.1

/-- Embeds a whole run of train (lines 44-150): split the seed key into
the running key and the init key, set up the training state, acquire the
logger, run num_epochs epochs, release the logger. -/
def trainTrace {V D : Type} [Inhabited V] (o : Oracles V D) (gpu_acting : Bool)
    (cfg : Config) : List Ev :=
  Ev.logAcquire
    :: runFrom o gpu_acting cfg 0 cfg.num_epochs
         (splitFst (prngKey cfg.seed))
         (o.setupTrainingState (splitSnd (prngKey cfg.seed)))
    ++ [Ev.logRelease]

/-- The epoch loop with a fallible body: the body of iteration i either
returns (key, state, events) or raises; a raise aborts the loop and is
propagated.  Returns the accumulated events and the pending exception. -/
def loopE {V E : Type} (body : Nat → Key → RTS V → Except E (Key × RTS V × List Ev)) :
    Nat → Nat → Key → RTS V → List Ev × Option E
  | _, 0, _, _ => ([], none)
  | i, fuel + 1, key, ts =>
      match body i key ts with
      | Except.error e => ([], some e)
      | Except.ok r =>
          ((fun rest => (r.2.2 ++ rest.1, rest.2)) (loopE body (i + 1) fuel r.1 r.2.1))

/-- Embeds the with-statement of train.py line 109 around the loop:
the logger is acquired, the loop runs until completion or until its
body raises, and the logger is released on either path before the
exception (if any) continues to propagate. -/
def trainTraceE {V E : Type} (cfg : Config)
    (body : Nat → Key → RTS V → Except E (Key × RTS V × List Ev))
    (key0 : Key) (ts0 : RTS V) : List Ev × Option E :=
  ((fun r => (Ev.logAcquire :: r.1 ++ [Ev.logRelease], r.2))
    (loopE body 0 cfg.num_epochs key0 ts0))

/-- Key entering epoch i: epoch 0 receives the first output of the
initial split of PRNGKey(seed); each epoch carries forward the first
output of its own three-way split. -/
def epochKey (seed : Nat) : Nat → Key
  | 0 => splitFst (prngKey seed)
  | i + 1 => splitFst (epochKey seed i)

/-- Stochastic-evaluation sub-key of epoch i. -/
def stochKeyAt (seed : Nat) (i : Nat) : Key := splitSnd (epochKey seed i)

/-- Greedy-evaluation sub-key of epoch i. -/
def greedyKeyAt (seed : Nat) (i : Nat) : Key := splitThd (epochKey seed i)

/-- Projection of a trace to its key-split events. -/
def keySplitsOf (tr : List Ev) : List (Key × Key × Key) :=
  tr.filterMap (fun e =>
    match e with
    | Ev.keySplit c s g => some (c, s, g)
    | _ => none)

/-- Projection of a trace to its logger writes (data, label, env_steps). -/
def writesOf (tr : List Ev) : List (String × Nat × Metrics) :=
  tr.filterMap (fun e =>
    match e with
    | Ev.write l n m => some (l, n, m)
    | _ => none)

/-- Projection of a trace to the events that mention PRNG keys outside
the greedy branch: key splits and stochastic-evaluation invocations. -/
def keyEvs (tr : List Ev) : List Ev :=
  tr.filter (fun e =>
    match e with
    | Ev.keySplit _ _ _ => true
    | Ev.stochEvalRun _ => true
    | _ => false)

/-- The event is a stochastic-evaluation invocation. -/
def isStochEv (e : Ev) : Prop :=
  match e with
  | Ev.stochEvalRun _ => True
  | _ => False

/-- The event is a greedy-evaluation invocation. -/
def isGreedyEv (e : Ev) : Prop :=
  match e with
  | Ev.greedyEvalRun _ => True
  | _ => False

/-- The event is an evaluation invocation of either kind. -/
def isEvalEv (e : Ev) : Prop := isStochEv e ∨ isGreedyEv e

/-- The event is an invocation of epoch_fn. -/
def isEpochCall (e : Ev) : Prop :=
  match e with
  | Ev.epochFnCall => True
  | _ => False

/-- Every event satisfying P occurs strictly before every event
satisfying Q in the trace. -/
def allBefore (P Q : Ev → Prop) (tr : List Ev) : Prop :=
  ∀ (p q : Nat) (ep eq2 : Ev),
    tr[p]? = some ep → tr[q]? = some eq2 → P ep → Q eq2 → p < q

/-- Boolean test for an epoch_fn invocation event. -/
def isEpochCallB (e : Ev) : Bool :=
  match e with
  | Ev.epochFnCall => true
  | _ => false

/-- Boolean test for a logger write with the given label. -/
def isWriteB (l : String) (e : Ev) : Bool :=
  match e with
  | Ev.write l2 _ _ => l2 == l
  | _ => false

/-- Boolean test for the logger-acquire event. -/
def isAcquireB (e : Ev) : Bool :=
  match e with
  | Ev.logAcquire => true
  | _ => false

/-- Boolean test for the logger-release event. -/
def isReleaseB (e : Ev) : Bool :=
  match e with
  | Ev.logRelease => true
  | _ => false

/-! Concrete instances used to evaluate the model on explicit inputs. -/

/-- A small concrete agent over natural-number leaves. -/
def agW : Agent Nat Nat :=
  { rollout := fun p a => (p + a, p)
    gradient_step := fun t _ => (t, [("loss", [(3 : ℚ), 5])]) }

/-- A concrete single-replica leaf on the primary device. -/
def locW (n : Nat) : Located (List Nat) :=
  { dev := Device.primary, val := [n] }

/-- A concrete replicated training state with replica axis of size one. -/
def tsW : RTS Nat :=
  { params_state :=
      { params := { actor := locW 1, critic := locW 2 }
        opt_state := locW 3
        update_count := locW 4 }
    acting_state := locW 5 }

/-- A concrete replicated training state whose acting-state leaf has a
replica axis of size two. -/
def tsW2 : RTS Nat :=
  { params_state :=
      { params := { actor := locW 1, critic := locW 2 }
        opt_state := locW 3
        update_count := locW 4 }
    acting_state := { dev := Device.primary, val := [5, 6] } }

/-- A concrete configuration. -/
def cfgW : Config :=
  { seed := 0, n_steps := 2, total_batch_size := 3,
    num_learner_steps_per_epoch := 5, num_epochs := 2 }

/-- Concrete oracles around the concrete agent. -/
def oW : Oracles Nat Nat :=
  { agent := agW
    agentIsRandom := false
    stochasticEval := fun _ _ => [("sc", [1])]
    greedyEval := fun _ _ => [("gr", [2])]
    firstFromDevice := fun m => m
    setupTrainingState := fun _ => tsW }

/-! Helper lemmas. -/

lemma epochKey_depth (s : Nat) : ∀ i, (epochKey s i).depth = i + 1 := by
  intro i
  induction i with
  | zero => rfl
  | succ n ih => simp [epochKey, splitFst, Key.depth, ih]

lemma epochKey_inj (s : Nat) {i j : Nat} (h : epochKey s i = epochKey s j) : i = j := by
  have hd : (epochKey s i).depth = (epochKey s j).depth := by rw [h]
  rw [epochKey_depth, epochKey_depth] at hd
  omega

lemma epochKey_is_sub_zero (s : Nat) (j : Nat) :
    ∃ k, epochKey s j = Key.sub 0 k := by
  cases j with
  | zero => exact ⟨prngKey s, rfl⟩
  | succ n => exact ⟨epochKey s n, rfl⟩

lemma keySplitsOf_append (l1 l2 : List Ev) :
    keySplitsOf (l1 ++ l2) = keySplitsOf l1 ++ keySplitsOf l2 := by
  simp [keySplitsOf]

lemma keySplitsOf_runEpoch {V D : Type} [Inhabited V] (o : Oracles V D)
    (g : Bool) (cfg : Config) (i : Nat) (key : Key) (ts : RTS V) :
    keySplitsOf (runEpoch o g cfg i key ts).2.2
      = [(splitFst key, splitSnd key, splitThd key)] := by
  cases hR : o.agentIsRandom <;> simp [runEpoch, keySplitsOf, hR]

lemma keySplitsOf_runFrom {V D : Type} [Inhabited V] (o : Oracles V D)
    (g : Bool) (cfg : Config) (s : Nat) :
    ∀ (fuel i : Nat) (ts : RTS V),
      keySplitsOf (runFrom o g cfg i fuel (epochKey s i) ts)
        = (List.range' i fuel).map
            (fun j => (epochKey s (j + 1), stochKeyAt s j, greedyKeyAt s j)) := by
  intro fuel
  induction fuel with
  | zero => intro i ts; simp [runFrom, keySplitsOf]
  | succ n ih =>
      intro i ts
      rw [runFrom, keySplitsOf_append, keySplitsOf_runEpoch, List.range'_succ]
      have hcarry : (runEpoch o g cfg i (epochKey s i) ts).1 = epochKey s (i + 1) := rfl
      rw [hcarry, ih (i + 1)]
      simp [stochKeyAt, greedyKeyAt, epochKey]

lemma allBefore_cons (P Q : Ev → Prop) (e : Ev) (tr : List Ev)
    (hQe : ¬ Q e) (h : allBefore P Q tr) : allBefore P Q (e :: tr) := by
  intro p q ep eq2 hp hq hPe hQe2
  cases q with
  | zero =>
      simp only [List.getElem?_cons_zero, Option.some.injEq] at hq
      exact absurd (hq ▸ hQe2) hQe
  | succ q2 =>
      cases p with
      | zero => omega
      | succ p2 =>
          have := h p2 q2 ep eq2 (by simpa using hp) (by simpa using hq) hPe hQe2
          omega

lemma allBefore_of_notP (P Q : Ev → Prop) (tr : List Ev)
    (h : ∀ e ∈ tr, ¬ P e) : allBefore P Q tr := by
  intro p q ep eq2 hp hq hPe hQe2
  rcases List.getElem?_eq_some.mp hp with ⟨hl, hg⟩
  exact absurd hPe (h ep (hg ▸ List.getElem_mem hl))

lemma allBefore_of_notQ (P Q : Ev → Prop) (tr : List Ev)
    (h : ∀ e ∈ tr, ¬ Q e) : allBefore P Q tr := by
  intro p q ep eq2 hp hq hPe hQe2
  rcases List.getElem?_eq_some.mp hq with ⟨hl, hg⟩
  exact absurd hQe2 (h eq2 (hg ▸ List.getElem_mem hl))

lemma runEpoch_trace {V D : Type} [Inhabited V] (o : Oracles V D) (g : Bool)
    (cfg : Config) (i : Nat) (key : Key) (ts : RTS V) :
    (runEpoch o g cfg i key ts).2.2
      = [Ev.keySplit (splitFst key) (splitSnd key) (splitThd key),
         Ev.stochEvalRun (splitSnd key),
         Ev.write "eval_stochastic" (i * numStepsPerEpoch cfg)
           (o.firstFromDevice (o.stochasticEval ts.params_state (splitSnd key)))]
        ++ (if o.agentIsRandom then []
            else
              [Ev.greedyEvalRun (splitThd key),
               Ev.write "eval_greedy" (i * numStepsPerEpoch cfg)
                 (o.firstFromDevice (o.greedyEval ts.params_state (splitThd key)))])
        ++ [Ev.epochFnCall,
            Ev.write "train" (i * numStepsPerEpoch cfg)
              (epoch_fn o.agent g ts).2] := rfl

lemma allBefore_of_append (P Q : Ev → Prop) (pre post : List Ev)
    (hP : ∀ e ∈ post, ¬ P e) (hQ : ∀ e ∈ pre, ¬ Q e) :
    allBefore P Q (pre ++ post) := by
  intro p q ep eq2 hp hq hPe hQe
  have hqlen : pre.length ≤ q := by
    by_contra hql
    push_neg at hql
    have : (pre ++ post)[q]? = pre[q]? := List.getElem?_append_left hql
    rw [this] at hq
    rcases List.getElem?_eq_some.mp hq with ⟨hlt, hget⟩
    exact hQ eq2 (hget ▸ List.getElem_mem hlt) hQe
  have hplen : p < pre.length := by
    by_contra hpl
    push_neg at hpl
    have : (pre ++ post)[p]? = post[p - pre.length]? := List.getElem?_append_right hpl
    rw [this] at hp
    rcases List.getElem?_eq_some.mp hp with ⟨hlt, hget⟩
    exact hP ep (hget ▸ List.getElem_mem hlt) hPe
  omega

lemma countP_runFrom {V D : Type} [Inhabited V] (o : Oracles V D) (g : Bool)
    (cfg : Config) (p : Ev → Bool)
    (h1 : ∀ i key ts, ((runEpoch o g cfg i key ts).2.2).countP p = 1) :
    ∀ (fuel i : Nat) (key : Key) (ts : RTS V),
      (runFrom o g cfg i fuel key ts).countP p = fuel := by
  intro fuel
  induction fuel with
  | zero => intro i key ts; simp [runFrom]
  | succ n ih =>
      intro i key ts
      rw [runFrom, List.countP_append, h1, ih]
      omega

lemma countP_loopE {V E : Type}
    (body : Nat → Key → RTS V → Except E (Key × RTS V × List Ev))
    (p : Ev → Bool)
    (h : ∀ i key ts r, body i key ts = Except.ok r → r.2.2.countP p = 0) :
    ∀ (fuel i : Nat) (key : Key) (ts : RTS V),
      ((loopE body i fuel key ts).1).countP p = 0 := by
  intro fuel
  induction fuel with
  | zero => intro i key ts; simp [loopE]
  | succ n ih =>
      intro i key ts
      rw [loopE]
      cases hb : body i key ts with
      | error e => simp
      | ok r => simp [List.countP_append, h i key ts r hb, ih]

lemma runFrom_eq_loopE {V D E : Type} [Inhabited V] (o : Oracles V D) (g : Bool)
    (cfg : Config) :
    ∀ (fuel i : Nat) (key : Key) (ts : RTS V),
      runFrom o g cfg i fuel key ts
        = (loopE (fun i2 k t => (Except.ok (runEpoch o g cfg i2 k t) : Except E _))
            i fuel key ts).1 := by
  intro fuel
  induction fuel with
  | zero => intro i key ts; rfl
  | succ n ih =>
      intro i key ts
      rw [runFrom, loopE]
      simp [ih]

lemma keyEvs_append (l1 l2 : List Ev) :
    keyEvs (l1 ++ l2) = keyEvs l1 ++ keyEvs l2 := by
  simp [keyEvs]

lemma keyEvs_runEpoch {V D : Type} [Inhabited V] (o : Oracles V D) (g : Bool)
    (cfg : Config) (i : Nat) (key : Key) (ts : RTS V) :
    keyEvs (runEpoch o g cfg i key ts).2.2
      = [Ev.keySplit (splitFst key) (splitSnd key) (splitThd key),
         Ev.stochEvalRun (splitSnd key)] := by
  cases hR : o.agentIsRandom <;> simp [runEpoch, keyEvs, hR]

lemma keyEvs_runFrom {V D : Type} [Inhabited V] (o1 o2 : Oracles V D) (g : Bool)
    (cfg : Config) (hag : o1.agent = o2.agent) :
    ∀ (fuel i : Nat) (key : Key) (ts : RTS V),
      keyEvs (runFrom o1 g cfg i fuel key ts)
        = keyEvs (runFrom o2 g cfg i fuel key ts) := by
  intro fuel
  induction fuel with
  | zero => intro i key ts; rfl
  | succ n ih =>
      intro i key ts
      rw [runFrom, runFrom, keyEvs_append, keyEvs_append,
          keyEvs_runEpoch, keyEvs_runEpoch]
      have hstate : (runEpoch o1 g cfg i key ts).2.1 = (runEpoch o2 g cfg i key ts).2.1 := by
        simp [runEpoch, hag]
      have hkey : (runEpoch o1 g cfg i key ts).1 = (runEpoch o2 g cfg i key ts).1 := rfl
      rw [hstate, hkey, ih]

/-! Claim theorems. -/

/-- C1: every logger.write call issued during epoch i of a run of train
carries env_steps = i * n_steps * total_batch_size *
num_learner_steps_per_epoch, the three factors being the corresponding
configuration values. -/
theorem C1_env_steps {V D : Type} [Inhabited V] (o : Oracles V D)
    (gpu_acting : Bool) (cfg : Config) (i : Nat) (key : Key) (ts : RTS V)
    (l : String) (n : Nat) (m : Metrics)
    (h : Ev.write l n m ∈ (runEpoch o gpu_acting cfg i key ts).2.2) :
    n = i * cfg.n_steps * cfg.total_batch_size * cfg.num_learner_steps_per_epoch := by
  have hn : n = i * numStepsPerEpoch cfg := by
    cases hR : o.agentIsRandom <;> simp [runEpoch, hR] at h <;> tauto
  rw [hn, numStepsPerEpoch]
  ring

/-- C1 witness: at the concrete configuration, epoch index 1 logs its
train metrics with env_steps = 30 = 1 * 2 * 3 * 5. -/
theorem C1_env_steps_witness :
    (30 : Nat) = 1 * cfgW.n_steps * cfgW.total_batch_size
                   * cfgW.num_learner_steps_per_epoch :=
  C1_env_steps oW false cfgW 1 (prngKey 0) tsW "train" 30
    (epoch_fn oW.agent false tsW).2
    (by simp [runEpoch, cfgW, numStepsPerEpoch])

/-- C2 counterexample: a training state whose acting-state leaf has a
replica axis of size two comes back from epoch_fn with a replica axis of
size one, so the leading-axis shape is not preserved as claimed. -/
theorem C2_counterexample :
    leafLens (epoch_fn agW false tsW2).1 ≠ leafLens tsW2 := by decide

/-- C2 (amended): the TrainingState returned by epoch_fn always has a
leading replica axis of size one on every leaf; hence its leading-axis
shape matches the input exactly when every leaf of the input has a
replica axis of size one. -/
theorem C2_replica_axis {V D : Type} [Inhabited V] (ag : Agent V D)
    (gpu_acting : Bool) (ts : RTS V) :
    leafLens (epoch_fn ag gpu_acting ts).1 = (1, 1, 1, 1, 1)
    ∧ (leafLens ts = (1, 1, 1, 1, 1) →
        leafLens (epoch_fn ag gpu_acting ts).1 = leafLens ts) := by
  constructor
  · simp [epoch_fn, leafLens, TrainingState.map, reattachLeaf]
  · intro h
    rw [h]
    simp [epoch_fn, leafLens, TrainingState.map, reattachLeaf]

/-- C2 witness: on a concrete single-replica state the amended claim
gives shape preservation. -/
theorem C2_replica_axis_witness :
    leafLens (epoch_fn agW false tsW).1 = leafLens tsW :=
  (C2_replica_axis agW false tsW).2 (by decide)

/-- C3: when gpu_acting is false, the policy parameters and acting state
handed to agent.rollout reside on the CPU device (their values
unchanged), and the acting state and trajectory data handed to
agent.gradient_step reside on the primary device (values unchanged);
when gpu_acting is true, both pairs are used in place, with no
relocation. -/
theorem C3_device_placement {V D : Type} [Inhabited V] (ag : Agent V D)
    (ts : RTS V) :
    (rolloutInputs false (strippedState ts)).1.dev = Device.cpu
    ∧ (rolloutInputs false (strippedState ts)).2.dev = Device.cpu
    ∧ (rolloutInputs false (strippedState ts)).1.val
        = (strippedState ts).params_state.params.actor.val
    ∧ (rolloutInputs false (strippedState ts)).2.val
        = (strippedState ts).acting_state.val
    ∧ (gradInputs false (rolloutResults ag false (strippedState ts))).1.dev
        = Device.primary
    ∧ (gradInputs false (rolloutResults ag false (strippedState ts))).2.dev
        = Device.primary
    ∧ (gradInputs false (rolloutResults ag false (strippedState ts))).1.val
        = (rolloutResults ag false (strippedState ts)).1.val
    ∧ (gradInputs false (rolloutResults ag false (strippedState ts))).2.val
        = (rolloutResults ag false (strippedState ts)).2.val
    ∧ rolloutInputs true (strippedState ts)
        = ((strippedState ts).params_state.params.actor,
           (strippedState ts).acting_state)
    ∧ gradInputs true (rolloutResults ag true (strippedState ts))
        = rolloutResults ag true (strippedState ts) := by
  refine ⟨rfl, rfl, rfl, rfl, rfl, rfl, rfl, rfl, rfl, rfl⟩

/-- C4: each epoch splits the current key into exactly three fresh
sub-keys (the carry-forward key, which is the key of the next epoch, the
stochastic-eval key, and the greedy-eval key), as the key-split trace of
a full run shows; and the stochastic-eval and greedy-eval sub-keys are
pairwise distinct across and within epochs, and distinct from every
carried key, so no key is ever reused. -/
theorem C4_key_freshness {V D : Type} [Inhabited V] (o : Oracles V D)
    (gpu_acting : Bool) (cfg : Config) :
    keySplitsOf (trainTrace o gpu_acting cfg)
      = (List.range' 0 cfg.num_epochs).map
          (fun j => (epochKey cfg.seed (j + 1), stochKeyAt cfg.seed j,
                     greedyKeyAt cfg.seed j))
    ∧ (∀ (s i j : Nat), stochKeyAt s i ≠ greedyKeyAt s j)
    ∧ (∀ (s i j : Nat), i ≠ j → stochKeyAt s i ≠ stochKeyAt s j)
    ∧ (∀ (s i j : Nat), i ≠ j → greedyKeyAt s i ≠ greedyKeyAt s j)
    ∧ (∀ (s i j : Nat), stochKeyAt s i ≠ epochKey s j)
    ∧ (∀ (s i j : Nat), greedyKeyAt s i ≠ epochKey s j) := by
  refine ⟨?_, ?_, ?_, ?_, ?_, ?_⟩
  · have h0 : splitFst (prngKey cfg.seed) = epochKey cfg.seed 0 := rfl
    rw [trainTrace]
    rw [show (Ev.logAcquire
          :: runFrom o gpu_acting cfg 0 cfg.num_epochs (splitFst (prngKey cfg.seed))
               (o.setupTrainingState (splitSnd (prngKey cfg.seed)))
          ++ [Ev.logRelease])
        = ([Ev.logAcquire]
            ++ runFrom o gpu_acting cfg 0 cfg.num_epochs (splitFst (prngKey cfg.seed))
                 (o.setupTrainingState (splitSnd (prngKey cfg.seed)))
            ++ [Ev.logRelease]) from by simp]
    rw [keySplitsOf_append, keySplitsOf_append, h0, keySplitsOf_runFrom]
    simp [keySplitsOf]
  · intro s i j h
    simp only [stochKeyAt, greedyKeyAt, splitSnd, splitThd, Key.sub.injEq] at h
    omega
  · intro s i j hij h
    simp only [stochKeyAt, splitSnd, Key.sub.injEq] at h
    exact hij (epochKey_inj s h.2)
  · intro s i j hij h
    simp only [greedyKeyAt, splitThd, Key.sub.injEq] at h
    exact hij (epochKey_inj s h.2)
  · intro s i j h
    rcases epochKey_is_sub_zero s j with ⟨k, hk⟩
    rw [hk] at h
    simp only [stochKeyAt, splitSnd, Key.sub.injEq] at h
    omega
  · intro s i j h
    rcases epochKey_is_sub_zero s j with ⟨k, hk⟩
    rw [hk] at h
    simp only [greedyKeyAt, splitThd, Key.sub.injEq] at h
    omega

/-- C4 witness: at seed 0, the stochastic-eval keys of epochs 0 and 1
are distinct, as are the stochastic and greedy keys of epoch 0. -/
theorem C4_key_freshness_witness :
    stochKeyAt 0 0 ≠ stochKeyAt 0 1 ∧ stochKeyAt 0 0 ≠ greedyKeyAt 0 0 := by
  refine ⟨(C4_key_freshness oW false cfgW).2.2.1 0 0 1 (by decide),
          (C4_key_freshness oW false cfgW).2.1 0 0 0⟩

/-- C5: within one epoch of the loop, the stochastic-evaluation call
occurs strictly before the greedy-evaluation call, every evaluation call
occurs strictly before the epoch_fn call, a greedy-evaluation event
exists in the epoch exactly when the agent is not a RandomAgent, and the
trajectory data the gradient step consumes is the value produced by the
rollout call of the same epoch. -/
theorem C5_ordering {V D : Type} [Inhabited V] (o : Oracles V D)
    (gpu_acting : Bool) (cfg : Config) (i : Nat) (key : Key) (ts : RTS V) :
    allBefore isStochEv isGreedyEv (runEpoch o gpu_acting cfg i key ts).2.2
    ∧ allBefore isEvalEv isEpochCall (runEpoch o gpu_acting cfg i key ts).2.2
    ∧ ((∃ e ∈ (runEpoch o gpu_acting cfg i key ts).2.2, isGreedyEv e)
        ↔ o.agentIsRandom = false)
    ∧ (gradInputs gpu_acting (rolloutResults o.agent gpu_acting (strippedState ts))).2.val
        = (rolloutResults o.agent gpu_acting (strippedState ts)).2.val := by
  refine ⟨?_, ?_, ?_, ?_⟩
  · rw [runEpoch_trace]
    cases o.agentIsRandom <;> simp only [Bool.false_eq_true, if_false, if_true,
      ite_true, ite_false, List.cons_append, List.nil_append] <;>
      refine allBefore_cons _ _ _ _ (by simp [isGreedyEv])
        (allBefore_cons _ _ _ _ (by simp [isGreedyEv])
          (allBefore_cons _ _ _ _ (by simp [isGreedyEv])
            (allBefore_of_notP _ _ _ ?_))) <;>
      intro e he <;> simp at he
    · rcases he with rfl | rfl | rfl | rfl <;> simp [isStochEv]
    · rcases he with rfl | rfl <;> simp [isStochEv]
  · rw [runEpoch_trace]
    cases o.agentIsRandom <;> simp only [Bool.false_eq_true, if_false, if_true,
      ite_true, ite_false, List.cons_append, List.nil_append]
    · refine allBefore_cons _ _ _ _ (by simp [isEpochCall])
        (allBefore_cons _ _ _ _ (by simp [isEpochCall])
          (allBefore_cons _ _ _ _ (by simp [isEpochCall])
            (allBefore_cons _ _ _ _ (by simp [isEpochCall])
              (allBefore_cons _ _ _ _ (by simp [isEpochCall])
                (allBefore_of_notP _ _ _ ?_)))))
      intro e he
      simp at he
      rcases he with rfl | rfl <;> simp [isEvalEv, isStochEv, isGreedyEv]
    · refine allBefore_cons _ _ _ _ (by simp [isEpochCall])
        (allBefore_cons _ _ _ _ (by simp [isEpochCall])
          (allBefore_cons _ _ _ _ (by simp [isEpochCall])
            (allBefore_of_notP _ _ _ ?_)))
      intro e he
      simp at he
      rcases he with rfl | rfl <;> simp [isEvalEv, isStochEv, isGreedyEv]
  · constructor
    · intro he
      cases hRb : o.agentIsRandom with
      | false => rfl
      | true =>
          exfalso
          rcases he with ⟨e, hmem, hg⟩
          rw [runEpoch_trace, hRb] at hmem
          simp at hmem
          rcases hmem with rfl | rfl | rfl | rfl | rfl <;> simp [isGreedyEv] at hg
    · intro hR
      refine ⟨Ev.greedyEvalRun (splitThd key), ?_, by simp [isGreedyEv]⟩
      rw [runEpoch_trace, hR]
      simp
  · cases gpu_acting <;> rfl

/-- C5 witness: on the concrete run, the stochastic evaluation of epoch
zero precedes the greedy one and the gradient step consumes the rollout
data. -/
theorem C5_ordering_witness :
    allBefore isStochEv isGreedyEv (runEpoch oW false cfgW 0 (prngKey 0) tsW).2.2
    ∧ (gradInputs false (rolloutResults oW.agent false (strippedState tsW))).2.val
        = (rolloutResults oW.agent false (strippedState tsW)).2.val :=
  ⟨(C5_ordering oW false cfgW 0 (prngKey 0) tsW).1,
   (C5_ordering oW false cfgW 0 (prngKey 0) tsW).2.2.2⟩

lemma runEpoch_countP_epochCall {V D : Type} [Inhabited V] (o : Oracles V D)
    (g : Bool) (cfg : Config) (i : Nat) (key : Key) (ts : RTS V) :
    ((runEpoch o g cfg i key ts).2.2).countP isEpochCallB = 1 := by
  cases hR : o.agentIsRandom <;> rw [runEpoch_trace, hR] <;> rfl

lemma runEpoch_countP_trainWrite {V D : Type} [Inhabited V] (o : Oracles V D)
    (g : Bool) (cfg : Config) (i : Nat) (key : Key) (ts : RTS V) :
    ((runEpoch o g cfg i key ts).2.2).countP (isWriteB "train") = 1 := by
  cases hR : o.agentIsRandom <;> rw [runEpoch_trace, hR] <;> rfl

/-- C6: assuming every delegated call returns, a run of train executes
its epoch body exactly num_epochs times (once per epoch it calls
epoch_fn and logs one train write) and then terminates; the trace shows
no other exit from the loop. -/
theorem C6_epoch_count {V D : Type} [Inhabited V] (o : Oracles V D)
    (gpu_acting : Bool) (cfg : Config) :
    (trainTrace o gpu_acting cfg).countP isEpochCallB = cfg.num_epochs
    ∧ (trainTrace o gpu_acting cfg).countP (isWriteB "train") = cfg.num_epochs := by
  constructor
  · have h := countP_runFrom o gpu_acting cfg isEpochCallB
      (fun i key ts => runEpoch_countP_epochCall o gpu_acting cfg i key ts)
      cfg.num_epochs 0 (splitFst (prngKey cfg.seed))
      (o.setupTrainingState (splitSnd (prngKey cfg.seed)))
    simp [trainTrace, List.countP_cons, List.countP_append, h, isEpochCallB]
  · have h := countP_runFrom o gpu_acting cfg (isWriteB "train")
      (fun i key ts => runEpoch_countP_trainWrite o gpu_acting cfg i key ts)
      cfg.num_epochs 0 (splitFst (prngKey cfg.seed))
      (o.setupTrainingState (splitSnd (prngKey cfg.seed)))
    simp [trainTrace, List.countP_cons, List.countP_append, h, isWriteB]

/-- C7: every metric array in the mapping returned by
agent.gradient_step appears in the metrics returned by epoch_fn reduced
to its scalar mean, and exactly that reduced mapping is logged under
label "train" in the epoch trace. -/
theorem C7_metric_mean {V D : Type} [Inhabited V] (o : Oracles V D)
    (gpu_acting : Bool) (cfg : Config) (i : Nat) (key : Key) (ts : RTS V)
    (nm : String) (a : List ℚ)
    (h : (nm, a) ∈ gradRawMetrics o.agent gpu_acting ts) :
    (nm, [listMean a]) ∈ (epoch_fn o.agent gpu_acting ts).2
    ∧ Ev.write "train" (i * numStepsPerEpoch cfg) (epoch_fn o.agent gpu_acting ts).2
        ∈ (runEpoch o gpu_acting cfg i key ts).2.2 := by
  constructor
  · have he : (epoch_fn o.agent gpu_acting ts).2
        = metricsMean (gradRawMetrics o.agent gpu_acting ts) := rfl
    rw [he, metricsMean]
    exact List.mem_map_of_mem _ h
  · rw [runEpoch_trace]
    cases o.agentIsRandom <;> simp

/-- C7 witness: the concrete raw loss array [3, 5] is logged as its
mean. -/
theorem C7_metric_mean_witness :
    ("loss", [listMean [(3 : ℚ), 5]]) ∈ (epoch_fn oW.agent false tsW).2
    ∧ Ev.write "train" (0 * numStepsPerEpoch cfgW) (epoch_fn oW.agent false tsW).2
        ∈ (runEpoch oW false cfgW 0 (prngKey 0) tsW).2.2 :=
  C7_metric_mean oW false cfgW 0 (prngKey 0) tsW "loss" [(3 : ℚ), 5] (by decide)

/-- C8: around any loop body, fallible or not, the with-statement model
acquires the logger exactly once at the start and releases it exactly
once at the end of the trace, whether the body ran to completion or
raised; and the actual driver is an instance of it, its per-epoch body
never touching the logger lifecycle. -/
theorem C8_logger_scope {V D E : Type} [Inhabited V] (cfg : Config)
    (body : Nat → Key → RTS V → Except E (Key × RTS V × List Ev))
    (key0 : Key) (ts0 : RTS V)
    (hbody : ∀ (i : Nat) (key : Key) (ts : RTS V) (r : Key × RTS V × List Ev),
        body i key ts = Except.ok r →
          r.2.2.countP isAcquireB = 0 ∧ r.2.2.countP isReleaseB = 0) :
    ((trainTraceE cfg body key0 ts0).1).countP isAcquireB = 1
    ∧ ((trainTraceE cfg body key0 ts0).1).countP isReleaseB = 1
    ∧ ((trainTraceE cfg body key0 ts0).1).head? = some Ev.logAcquire
    ∧ ((trainTraceE cfg body key0 ts0).1).getLast? = some Ev.logRelease
    ∧ (∀ (o : Oracles V D) (g : Bool),
        trainTrace o g cfg
          = (trainTraceE cfg
              (fun i2 k t => (Except.ok (runEpoch o g cfg i2 k t) : Except E _))
              (splitFst (prngKey cfg.seed))
              (o.setupTrainingState (splitSnd (prngKey cfg.seed)))).1) := by
  refine ⟨?_, ?_, rfl, ?_, ?_⟩
  · have h0 := countP_loopE body isAcquireB
      (fun i key ts r hr => (hbody i key ts r hr).1) cfg.num_epochs 0 key0 ts0
    simp [trainTraceE, List.countP_cons, List.countP_append, h0, isAcquireB]
  · have h0 := countP_loopE body isReleaseB
      (fun i key ts r hr => (hbody i key ts r hr).2) cfg.num_epochs 0 key0 ts0
    simp [trainTraceE, List.countP_cons, List.countP_append, h0, isReleaseB]
  · show (Ev.logAcquire :: (loopE body 0 cfg.num_epochs key0 ts0).1
            ++ [Ev.logRelease]).getLast? = some Ev.logRelease
    exact List.getLast?_concat _
  · intro o g
    show Ev.logAcquire
        :: runFrom o g cfg 0 cfg.num_epochs (splitFst (prngKey cfg.seed))
             (o.setupTrainingState (splitSnd (prngKey cfg.seed)))
        ++ [Ev.logRelease]
      = Ev.logAcquire
        :: (loopE (fun i2 k t => (Except.ok (runEpoch o g cfg i2 k t) : Except E _))
              0 cfg.num_epochs (splitFst (prngKey cfg.seed))
              (o.setupTrainingState (splitSnd (prngKey cfg.seed)))).1
        ++ [Ev.logRelease]
    rw [runFrom_eq_loopE]

/-- C8 witness: with a body that raises on the first epoch, the logger
is still released exactly once. -/
theorem C8_logger_scope_witness :
    ((trainTraceE cfgW
        (fun _ _ _ => (Except.error () : Except Unit (Key × RTS Nat × List Ev)))
        (prngKey 0) tsW).1).countP isReleaseB = 1 :=
  (C8_logger_scope (D := Nat) cfgW
    (fun _ _ _ => (Except.error () : Except Unit (Key × RTS Nat × List Ev)))
    (prngKey 0) tsW (fun _ _ _ _ h => nomatch h)).2.1

/-- C9: the driver is deterministic: two runs of train with equal
configurations, equal oracles, and equal gpu_acting flags produce
identical sequences of (label, env_steps, data) logger writes; all
randomness stems from PRNGKey(cfg.seed). -/
theorem C9_determinism {V D : Type} [Inhabited V] (o1 o2 : Oracles V D)
    (g1 g2 : Bool) (cfg1 cfg2 : Config)
    (hc : cfg1 = cfg2) (ho : o1 = o2) (hg : g1 = g2) :
    writesOf (trainTrace o1 g1 cfg1) = writesOf (trainTrace o2 g2 cfg2) := by
  subst hc
  subst ho
  subst hg
  rfl

/-- C9 witness: the concrete run is equal to itself as a write
sequence. -/
theorem C9_determinism_witness :
    writesOf (trainTrace oW false cfgW) = writesOf (trainTrace oW false cfgW) :=
  C9_determinism oW oW false false cfgW cfgW rfl rfl rfl

/-- C10: the per-epoch key split happens unconditionally before the
agent-type check, so the whole sequence of key splits (and with it every
carry-forward key and every stochastic-eval key) is identical whether
the greedy branch runs or not: flipping only the RandomAgent flag leaves
the key events of the full run unchanged. -/
theorem C10_key_split_unconditional {V D : Type} [Inhabited V]
    (o : Oracles V D) (gpu_acting : Bool) (cfg : Config) (b1 b2 : Bool) :
    keyEvs (trainTrace { o with agentIsRandom := b1 } gpu_acting cfg)
      = keyEvs (trainTrace { o with agentIsRandom := b2 } gpu_acting cfg) := by
  show keyEvs (Ev.logAcquire
        :: runFrom { o with agentIsRandom := b1 } gpu_acting cfg 0 cfg.num_epochs
             (splitFst (prngKey cfg.seed))
             (o.setupTrainingState (splitSnd (prngKey cfg.seed)))
        ++ [Ev.logRelease])
      = keyEvs (Ev.logAcquire
        :: runFrom { o with agentIsRandom := b2 } gpu_acting cfg 0 cfg.num_epochs
             (splitFst (prngKey cfg.seed))
             (o.setupTrainingState (splitSnd (prngKey cfg.seed)))
        ++ [Ev.logRelease])
  rw [show (Ev.logAcquire
        :: runFrom { o with agentIsRandom := b1 } gpu_acting cfg 0 cfg.num_epochs
             (splitFst (prngKey cfg.seed))
             (o.setupTrainingState (splitSnd (prngKey cfg.seed)))
        ++ [Ev.logRelease])
      = [Ev.logAcquire]
        ++ runFrom { o with agentIsRandom := b1 } gpu_acting cfg 0 cfg.num_epochs
             (splitFst (prngKey cfg.seed))
             (o.setupTrainingState (splitSnd (prngKey cfg.seed)))
        ++ [Ev.logRelease] from by simp]
  rw [show (Ev.logAcquire
        :: runFrom { o with agentIsRandom := b2 } gpu_acting cfg 0 cfg.num_epochs
             (splitFst (prngKey cfg.seed))
             (o.setupTrainingState (splitSnd (prngKey cfg.seed)))
        ++ [Ev.logRelease])
      = [Ev.logAcquire]
        ++ runFrom { o with agentIsRandom := b2 } gpu_acting cfg 0 cfg.num_epochs
             (splitFst (prngKey cfg.seed))
             (o.setupTrainingState (splitSnd (prngKey cfg.seed)))
        ++ [Ev.logRelease] from by simp]
  rw [keyEvs_append, keyEvs_append, keyEvs_append, keyEvs_append]
  rw [keyEvs_runFrom { o with agentIsRandom := b1 } { o with agentIsRandom := b2 }
        gpu_acting cfg rfl]

end JumanjiTrain
